import Mathlib

/-!
Verification of the StrideTime stride-core scoring and planning engine.

The definitions below are a shallow embedding of the TypeScript source:
`src/scoring` (difficulty multipliers, task scoring, efficiency, daily
aggregation, trend) and `src/planning` (priority scoring, day assignment).
JavaScript numbers are modelled as rationals (`ℚ`); `Math.round` and
`Math.ceil` are modelled exactly; optional/nullable fields are `Option`;
JavaScript truthiness checks on numeric fields (`!x`, `x && ...`) are
modelled as the corresponding zero/absence tests.
-/

namespace StrideCore

/-- JavaScript `Math.round`: round to nearest integer, half toward +∞. -/
def jsRound (q : ℚ) : ℤ := ⌊q + 1/2⌋

/-- JavaScript `Math.ceil`: round up to the nearest integer. -/
def jsCeil (q : ℚ) : ℤ := -⌊-q⌋

/-- Round to one decimal place, as the source's `Math.round(x * 10) / 10`. -/
def round1 (q : ℚ) : ℚ := (jsRound (q * 10) : ℚ) / 10

/-- Task difficulty levels (`Difficulty` in `@stridetime/db`). -/
inductive Difficulty
  | TRIVIAL
  | EASY
  | MEDIUM
  | HARD
  | EXTREME
deriving DecidableEq

/-- `DIFFICULTY_MULTIPLIERS`: difficulty multipliers for base points. -/
def DIFFICULTY_MULTIPLIERS : Difficulty → ℚ
  | .TRIVIAL => 1
  | .EASY => 2
  | .MEDIUM => 3
  | .HARD => 5
  | .EXTREME => 8

/-- Task scheduling status (`TaskStatus` in `@stridetime/db`). -/
inductive TaskStatus
  | BACKLOG
  | PLANNED
  | IN_PROGRESS
  | COMPLETED
  | ARCHIVED
deriving DecidableEq

/-- Scoring/planning-relevant projection of a task row. Timestamps
(`due_date`, `updated_at`) are milliseconds since the epoch, matching
`new Date(x).getTime()`; `planned_for_date` is a `YYYY-MM-DD` string. -/
structure Task where
  difficulty : Difficulty
  progress : ℕ
  estimated_minutes : Option ℕ
  actual_minutes : ℕ
  max_minutes : Option ℕ
  due_date : Option ℤ
  updated_at : Option ℤ
  status : TaskStatus
  planned_for_date : Option String
deriving DecidableEq

/-- `ScoringContext`: ambient context for scoring a task. -/
structure ScoringContext where
  taskTypesWorkedToday : ℕ
deriving DecidableEq

/-- `TaskScore`: per-task score breakdown returned by `calculateTaskScore`. -/
structure TaskScore where
  basePoints : ℚ
  efficiencyBonus : ℚ
  focusBonus : ℚ
  totalPoints : ℤ
deriving DecidableEq

/-- Unrounded base points: `DIFFICULTY_MULTIPLIERS[task.difficulty] * (task.progress / 100)`. -/
def basePointsRaw (task : Task) : ℚ :=
  DIFFICULTY_MULTIPLIERS task.difficulty * ((task.progress : ℚ) / 100)

/-- Unrounded efficiency bonus. The source guard is
`task.progress === 100 && task.estimated_minutes && task.actual_minutes < task.estimated_minutes`;
the truthiness of `task.estimated_minutes` is presence with a nonzero value. -/
def efficiencyBonusRaw (task : Task) : ℚ :=
  if task.progress = 100 ∧ 0 < task.estimated_minutes.getD 0 ∧
      task.actual_minutes < task.estimated_minutes.getD 0 then
    basePointsRaw task * (0.2 : ℚ)
  else 0

/-- Unrounded focus bonus: 10% of base points when
`context.taskTypesWorkedToday >= 3`. -/
def focusBonusRaw (task : Task) (context : ScoringContext) : ℚ :=
  if 3 ≤ context.taskTypesWorkedToday then basePointsRaw task * (0.1 : ℚ) else 0

/-- `calculateTaskScore`: productivity points for a task. The total is
rounded from the unrounded sum; the breakdown components are each rounded
to one decimal for display. -/
def calculateTaskScore (task : Task) (context : ScoringContext) : TaskScore :=
  let basePoints := basePointsRaw task
  let efficiencyBonus := efficiencyBonusRaw task
  let focusBonus := focusBonusRaw task context
  let totalPoints := jsRound (basePoints + efficiencyBonus + focusBonus)
  { basePoints := round1 basePoints
    efficiencyBonus := round1 efficiencyBonus
    focusBonus := round1 focusBonus
    totalPoints := totalPoints }

/-- `calculateEfficiency`: efficiency rating. The source guard
`!task.estimated_minutes || task.actual_minutes === 0` is true when
`estimated_minutes` is absent or zero, or `actual_minutes` is zero. -/
def calculateEfficiency (task : Task) : ℚ :=
  if task.estimated_minutes.getD 0 = 0 ∨ task.actual_minutes = 0 then 1
  else (task.estimated_minutes.getD 0 : ℚ) / (task.actual_minutes : ℚ)

/-- `calculateDailyScore`: left fold summing `totalPoints` over the list. -/
def calculateDailyScore (completedTasks : List Task) (context : ScoringContext) : ℤ :=
  completedTasks.foldl (fun total task => total + (calculateTaskScore task context).totalPoints) 0

/-- `calculateTrend`: today's score relative to the average, `1.0` when the
average is zero. -/
def calculateTrend (todayScore averageScore : ℚ) : ℚ :=
  if averageScore = 0 then 1 else todayScore / averageScore

/-- `getTrendLabel`: human-readable trend description, five bands on
`percentage = Math.round((trend - 1) * 100)`, first match wins. -/
def getTrendLabel (trend : ℚ) : String :=
  let percentage := jsRound ((trend - 1) * 100)
  if percentage > 20 then toString percentage ++ "% above your average—great focus today!"
  else if percentage > 0 then toString percentage ++ "% above your average"
  else if percentage = 0 then "Right on your average"
  else if percentage > -20 then toString percentage.natAbs ++ "% below your average"
  else toString percentage.natAbs ++ "% below your average—take it easy"

/-- Milliseconds per day, the source's `1000 * 60 * 60 * 24`. -/
def msPerDay : ℚ := 1000 * 60 * 60 * 24

/-- Due-date urgency contribution of `calculatePriority` (skipped when
`due_date` is absent). -/
def dueDateScore (task : Task) (today : ℤ) : ℤ :=
  match task.due_date with
  | none => 0
  | some dueDate =>
    let daysUntilDue : ℤ := jsCeil (((dueDate : ℚ) - (today : ℚ)) / msPerDay)
    if daysUntilDue ≤ 0 then 40
    else if daysUntilDue = 1 then 35
    else if daysUntilDue ≤ 7 then 25
    else if daysUntilDue ≤ 30 then 10
    else 0

/-- Near-completion contribution of `calculatePriority`. -/
def completionScore (task : Task) : ℤ :=
  if 80 ≤ task.progress then 30
  else if 50 ≤ task.progress then 15
  else 0

/-- Time-constraint contribution of `calculatePriority`. The source guard
`task.max_minutes && task.actual_minutes` requires both fields truthy,
i.e. present and nonzero. -/
def timeConstraintScore (task : Task) : ℤ :=
  match task.max_minutes with
  | none => 0
  | some maxMinutes =>
    if maxMinutes ≠ 0 ∧ task.actual_minutes ≠ 0 then
      let timeRemaining : ℚ := (maxMinutes : ℚ) - (task.actual_minutes : ℚ)
      let percentRemaining : ℚ := timeRemaining / (maxMinutes : ℚ)
      if percentRemaining ≤ (0.2 : ℚ) then 20
      else if percentRemaining ≤ (0.5 : ℚ) then 10
      else 0
    else 0

/-- Neglect contribution of `calculatePriority` (skipped when `updated_at`
is absent). -/
def neglectScore (task : Task) (today : ℤ) : ℤ :=
  match task.updated_at with
  | none => 0
  | some updatedAt =>
    let daysSinceUpdate : ℤ := jsCeil (((today : ℚ) - (updatedAt : ℚ)) / msPerDay)
    if 7 ≤ daysSinceUpdate then 10
    else if 3 ≤ daysSinceUpdate then 5
    else 0

/-- `calculatePriority`: the sequential `score += ...` accumulation in the
source is the sum of the four independent band contributions. -/
def calculatePriority (task : Task) (today : ℤ) : ℤ :=
  dueDateScore task today + completionScore task + timeConstraintScore task + neglectScore task today

/-- `assignToDay` restricted to its effect on the task row: set
`planned_for_date`, move `BACKLOG` to `PLANNED` (other statuses unchanged),
refresh `updated_at`. -/
def assignToDay (task : Task) (date : String) (now : ℤ) : Task :=
  { task with
    planned_for_date := some date
    status := if task.status = .BACKLOG then .PLANNED else task.status
    updated_at := some now }

/-- `unassignTask` restricted to its effect on the task row: clear
`planned_for_date`, move `PLANNED` back to `BACKLOG` (other statuses
unchanged), refresh `updated_at`. -/
def unassignTask (task : Task) (now : ℤ) : Task :=
  { task with
    planned_for_date := none
    status := if task.status = .PLANNED then .BACKLOG else task.status
    updated_at := some now }

/-- Concrete TRIVIAL task with progress 1: its unrounded score 0.01 rounds
to a total of 0 points even though progress is nonzero. -/
def trivialProgressOneTask : Task :=
  { difficulty := .TRIVIAL, progress := 1, estimated_minutes := none,
    actual_minutes := 0, max_minutes := none, due_date := none,
    updated_at := none, status := .IN_PROGRESS, planned_for_date := none }

/-- Concrete task whose `estimated_minutes` is present but equal to 0, with
nonzero `actual_minutes`: the falsy-zero branch of `calculateEfficiency`. -/
def zeroEstimateTask : Task :=
  { difficulty := .EASY, progress := 50, estimated_minutes := some 0,
    actual_minutes := 5, max_minutes := none, due_date := none,
    updated_at := none, status := .IN_PROGRESS, planned_for_date := none }

/-- Concrete task that took 60 minutes against a 30-minute estimate. -/
def overTimeTask : Task :=
  { difficulty := .MEDIUM, progress := 100, estimated_minutes := some 30,
    actual_minutes := 60, max_minutes := none, due_date := none,
    updated_at := none, status := .COMPLETED, planned_for_date := none }

/-- Concrete task for the C2 worked example: HARD, fully complete, finished
45 of an estimated 60 minutes. -/
def hardExampleTask : Task :=
  { difficulty := .HARD, progress := 100, estimated_minutes := some 60,
    actual_minutes := 45, max_minutes := none, due_date := none,
    updated_at := none, status := .COMPLETED, planned_for_date := none }

/-- Concrete task for the C4 worked example: due in exactly one day
(86400000 ms after time 0), progress 85, no time-tracking fields, last
updated 10 days (864000000 ms) before time 0. -/
def dueTomorrowTask : Task :=
  { difficulty := .MEDIUM, progress := 85, estimated_minutes := none,
    actual_minutes := 0, max_minutes := none, due_date := some 86400000,
    updated_at := some (-864000000), status := .PLANNED, planned_for_date := none }

/-- Concrete backlog task used to witness the C8 round trip. -/
def backlogTask : Task :=
  { difficulty := .EASY, progress := 0, estimated_minutes := none,
    actual_minutes := 0, max_minutes := none, due_date := none,
    updated_at := none, status := .BACKLOG, planned_for_date := none }

/-- C2: on the HARD / progress-100 / 60-estimated / 45-actual task with 3
task types worked today, `calculateTaskScore` returns basePoints 5.0,
efficiencyBonus 1.0, focusBonus 0.5, and totalPoints `round(6.5) = 7`
(`Math.round` rounds the half-way case 6.5 up). -/
theorem C2_hard_example_score :
    calculateTaskScore hardExampleTask { taskTypesWorkedToday := 3 }
        = { basePoints := 5, efficiencyBonus := 1, focusBonus := (0.5 : ℚ), totalPoints := 7 } ∧
      jsRound (13/2 : ℚ) = 7 := by
  constructor
  · norm_num [hardExampleTask, calculateTaskScore, basePointsRaw, efficiencyBonusRaw,
      focusBonusRaw, DIFFICULTY_MULTIPLIERS, round1, jsRound]
  · norm_num [jsRound]

/-- C4: for a task due in exactly 1 day, progress 85, no time-tracking
fields, and `updated_at` 10 days old, the four bands of `calculatePriority`
contribute 35, 30, 0 and 10 independently and sum to 75. -/
theorem C4_priority_example :
    dueDateScore dueTomorrowTask 0 = 35 ∧
    completionScore dueTomorrowTask = 30 ∧
    timeConstraintScore dueTomorrowTask = 0 ∧
    neglectScore dueTomorrowTask 0 = 10 ∧
    calculatePriority dueTomorrowTask 0 = 35 + 30 + 0 + 10 := by
  have hdue : dueDateScore dueTomorrowTask 0 = 35 := by
    norm_num [dueTomorrowTask, dueDateScore, jsCeil, msPerDay]
  have hcomp : completionScore dueTomorrowTask = 30 := by
    norm_num [dueTomorrowTask, completionScore]
  have htime : timeConstraintScore dueTomorrowTask = 0 := by
    norm_num [dueTomorrowTask, timeConstraintScore]
  have hneg : neglectScore dueTomorrowTask 0 = 10 := by
    norm_num [dueTomorrowTask, neglectScore, jsCeil, msPerDay]
  refine ⟨hdue, hcomp, htime, hneg, ?_⟩
  rw [calculatePriority, hdue, hcomp, htime, hneg]

/-- C8: assigning a task that starts in `BACKLOG` to a day and then
immediately unassigning it restores status `BACKLOG` and clears
`planned_for_date`. -/
theorem C8_assign_unassign_roundtrip (task : Task) (date : String) (t1 t2 : ℤ)
    (h : task.status = .BACKLOG) :
    (unassignTask (assignToDay task date t1) t2).status = .BACKLOG ∧
    (unassignTask (assignToDay task date t1) t2).planned_for_date = none := by
  simp [assignToDay, unassignTask, h]

/-- Witness for C8: the round trip on a concrete backlog task. -/
theorem C8_assign_unassign_roundtrip_witness :
    backlogTask.status = .BACKLOG ∧
    (unassignTask (assignToDay backlogTask "2026-10-11" 100) 200).status = .BACKLOG ∧
    (unassignTask (assignToDay backlogTask "2026-10-11" 100) 200).planned_for_date = none := by
  have h := C8_assign_unassign_roundtrip backlogTask "2026-10-11" 100 200 rfl
  exact ⟨rfl, h.1, h.2⟩

/-- C9: `calculateTrend` returns the neutral value 1.0 whenever the average
is 0, and the ratio `todayScore / averageScore` whenever the average is
nonzero. -/
theorem C9_trend_zero_guard (todayScore averageScore : ℚ) :
    calculateTrend todayScore 0 = 1 ∧
    (averageScore ≠ 0 → calculateTrend todayScore averageScore = todayScore / averageScore) := by
  constructor
  · simp [calculateTrend]
  · intro h
    simp [calculateTrend, h]

/-- Witness for C9: trend of 6 against average 0 is 1, and against average
3 is the ratio 2. -/
theorem C9_trend_zero_guard_witness :
    calculateTrend 6 0 = 1 ∧ calculateTrend 6 3 = 2 := by
  refine ⟨(C9_trend_zero_guard 6 3).1, ?_⟩
  have h := (C9_trend_zero_guard 6 3).2 (by norm_num)
  rw [h]
  norm_num

/-- A left fold accumulating `f` over a list starting from `init` is `init`
plus the sum of the mapped list. -/
theorem foldl_add_eq_sum (f : Task → ℤ) (l : List Task) (init : ℤ) :
    l.foldl (fun total task => total + f task) init = init + (l.map f).sum := by
  induction l generalizing init with
  | nil => simp
  | cons a l ih => simp [ih, add_assoc]

/-- C7: `calculateDailyScore` on the empty list is 0, it equals the sum of
the per-task `totalPoints`, and it is invariant under permutation of its
input list. -/
theorem C7_daily_score_sum (ctx : ScoringContext) :
    calculateDailyScore [] ctx = 0 ∧
    (∀ tasks : List Task,
      calculateDailyScore tasks ctx
        = (tasks.map fun t => (calculateTaskScore t ctx).totalPoints).sum) ∧
    (∀ l1 l2 : List Task, List.Perm l1 l2 →
      calculateDailyScore l1 ctx = calculateDailyScore l2 ctx) := by
  have hsum : ∀ tasks : List Task,
      calculateDailyScore tasks ctx
        = (tasks.map fun t => (calculateTaskScore t ctx).totalPoints).sum := by
    intro tasks
    have h := foldl_add_eq_sum (fun t => (calculateTaskScore t ctx).totalPoints) tasks 0
    simpa [calculateDailyScore] using h
  refine ⟨rfl, hsum, ?_⟩
  intro l1 l2 hp
  rw [hsum l1, hsum l2]
  exact (hp.map _).sum_eq

/-- Witness for C7: swapping the two tasks of a concrete list leaves the
daily score unchanged. -/
theorem C7_daily_score_sum_witness :
    calculateDailyScore [hardExampleTask, dueTomorrowTask] { taskTypesWorkedToday := 0 }
      = calculateDailyScore [dueTomorrowTask, hardExampleTask] { taskTypesWorkedToday := 0 } := by
  exact (C7_daily_score_sum { taskTypesWorkedToday := 0 }).2.2 _ _
    (List.Perm.swap dueTomorrowTask hardExampleTask [])

/-- C6: `getTrendLabel` classifies by `percentage = round((trend - 1) * 100)`
into five mutually exclusive bands, first match wins: above 20, above 0,
exactly 0, above -20, and at most -20. -/
theorem C6_trend_label_bands (trend : ℚ) (p : ℤ)
    (hp : p = jsRound ((trend - 1) * 100)) :
    (20 < p → getTrendLabel trend = toString p ++ "% above your average—great focus today!") ∧
    (0 < p → p ≤ 20 → getTrendLabel trend = toString p ++ "% above your average") ∧
    (p = 0 → getTrendLabel trend = "Right on your average") ∧
    (-20 < p → p < 0 → getTrendLabel trend = toString p.natAbs ++ "% below your average") ∧
    (p ≤ -20 → getTrendLabel trend = toString p.natAbs ++ "% below your average—take it easy") := by
  simp only [getTrendLabel, ← hp]
  refine ⟨?_, ?_, ?_, ?_, ?_⟩ <;> intros <;> split_ifs <;> first | rfl | omega

/-- Witness for C6: a trend of 1/2 is 50 points below average, landing in
the lowest band. -/
theorem C6_trend_label_bands_witness :
    getTrendLabel (1/2) = "50% below your average—take it easy" := by
  have h := (C6_trend_label_bands (1/2) (-50) (by norm_num [jsRound])).2.2.2.2 (by norm_num)
  rw [h]
  rfl

/-- Every difficulty multiplier is positive. -/
theorem DIFFICULTY_MULTIPLIERS_pos (d : Difficulty) : 0 < DIFFICULTY_MULTIPLIERS d := by
  cases d <;> norm_num [DIFFICULTY_MULTIPLIERS]

/-- Unrounded base points are non-negative. -/
theorem basePointsRaw_nonneg (task : Task) : 0 ≤ basePointsRaw task := by
  unfold basePointsRaw
  exact mul_nonneg (DIFFICULTY_MULTIPLIERS_pos task.difficulty).le (by positivity)

/-- The unrounded efficiency bonus is non-negative. -/
theorem efficiencyBonusRaw_nonneg (task : Task) : 0 ≤ efficiencyBonusRaw task := by
  unfold efficiencyBonusRaw
  split_ifs
  · exact mul_nonneg (basePointsRaw_nonneg task) (by norm_num)
  · exact le_refl 0

/-- The unrounded focus bonus is non-negative. -/
theorem focusBonusRaw_nonneg (task : Task) (ctx : ScoringContext) :
    0 ≤ focusBonusRaw task ctx := by
  unfold focusBonusRaw
  split_ifs
  · exact mul_nonneg (basePointsRaw_nonneg task) (by norm_num)
  · exact le_refl 0

/-- C1 counterexample: the TRIVIAL task with progress 1 has totalPoints 0
although its progress is nonzero (the unrounded score 0.01 rounds to 0), so
totalPoints being 0 does not imply progress 0. -/
theorem C1_total_points_counterexample :
    (calculateTaskScore trivialProgressOneTask { taskTypesWorkedToday := 0 }).totalPoints = 0 ∧
    trivialProgressOneTask.progress ≠ 0 := by
  constructor
  · norm_num [trivialProgressOneTask, calculateTaskScore, basePointsRaw, efficiencyBonusRaw,
      focusBonusRaw, DIFFICULTY_MULTIPLIERS, round1, jsRound]
  · norm_num [trivialProgressOneTask]

/-- C1 amended: totalPoints is always non-negative; progress 0 forces
totalPoints 0; and the unrounded base points vanish exactly when progress
is 0 (rounding, not the formula, is what sends small positive scores to a
total of 0). -/
theorem C1_total_points_amended (task : Task) (ctx : ScoringContext) :
    0 ≤ (calculateTaskScore task ctx).totalPoints ∧
    (task.progress = 0 → (calculateTaskScore task ctx).totalPoints = 0) ∧
    (basePointsRaw task = 0 ↔ task.progress = 0) := by
  refine ⟨?_, ?_, ?_⟩
  · have hb := basePointsRaw_nonneg task
    have he := efficiencyBonusRaw_nonneg task
    have hf := focusBonusRaw_nonneg task ctx
    simp only [calculateTaskScore, jsRound]
    rw [Int.le_floor]
    push_cast
    linarith
  · intro h0
    have hb0 : basePointsRaw task = 0 := by
      unfold basePointsRaw
      rw [h0]
      norm_num
    have he0 : efficiencyBonusRaw task = 0 := by
      unfold efficiencyBonusRaw
      rw [if_neg]
      rintro ⟨h100, -, -⟩
      rw [h0] at h100
      omega
    have hf0 : focusBonusRaw task ctx = 0 := by
      unfold focusBonusRaw
      split_ifs <;> simp [hb0]
    simp only [calculateTaskScore, hb0, he0, hf0]
    norm_num [jsRound]
  · unfold basePointsRaw
    rw [mul_eq_zero, div_eq_zero_iff]
    have hm : DIFFICULTY_MULTIPLIERS task.difficulty ≠ 0 :=
      (DIFFICULTY_MULTIPLIERS_pos task.difficulty).ne.symm
    simp [hm, Nat.cast_eq_zero]

/-- Witness for C1 amended: the concrete progress-0 backlog task scores a
non-negative total of exactly 0. -/
theorem C1_total_points_amended_witness :
    0 ≤ (calculateTaskScore backlogTask { taskTypesWorkedToday := 0 }).totalPoints ∧
    (calculateTaskScore backlogTask { taskTypesWorkedToday := 0 }).totalPoints = 0 := by
  have h := C1_total_points_amended backlogTask { taskTypesWorkedToday := 0 }
  exact ⟨h.1, h.2.1 rfl⟩

/-- C3 counterexample: with `estimated_minutes` present but 0 and
`actual_minutes` 5, `calculateEfficiency` returns 1 (the falsy-zero guard
fires), not the ratio 0/5 = 0 the claim prescribes. -/
theorem C3_efficiency_counterexample :
    zeroEstimateTask.estimated_minutes = some 0 ∧
    zeroEstimateTask.actual_minutes ≠ 0 ∧
    calculateEfficiency zeroEstimateTask = 1 ∧
    (zeroEstimateTask.estimated_minutes.getD 0 : ℚ) / (zeroEstimateTask.actual_minutes : ℚ)
      = 0 := by
  refine ⟨rfl, by norm_num [zeroEstimateTask], ?_, by norm_num [zeroEstimateTask]⟩
  norm_num [calculateEfficiency, zeroEstimateTask]

/-- C3 amended: `calculateEfficiency` returns 1 when `estimated_minutes` is
absent or zero, or `actual_minutes` is zero; in every other case it
returns `estimated_minutes / actual_minutes`. -/
theorem C3_efficiency_amended (task : Task) :
    (task.estimated_minutes.getD 0 = 0 ∨ task.actual_minutes = 0 →
      calculateEfficiency task = 1) ∧
    (∀ e : ℕ, task.estimated_minutes = some e → e ≠ 0 → task.actual_minutes ≠ 0 →
      calculateEfficiency task = (e : ℚ) / (task.actual_minutes : ℚ)) := by
  constructor
  · intro h
    unfold calculateEfficiency
    rw [if_pos h]
  · intro e he hne hna
    unfold calculateEfficiency
    rw [if_neg]
    · rw [he]
      simp
    · rw [he]
      simp [hne, hna]

/-- Witness for C3 amended: 30 estimated over 60 actual minutes gives
efficiency 1/2. -/
theorem C3_efficiency_amended_witness :
    calculateEfficiency overTimeTask = 1/2 := by
  have h := (C3_efficiency_amended overTimeTask).2 30 rfl (by norm_num) (by decide)
  rw [h]
  norm_num [overTimeTask]

/-- C5: the returned efficiency bonus equals `basePoints * 0.2` exactly when
progress is 100, the estimate is present, and actual time is under the
estimate; in every other case it is 0. -/
theorem C5_efficiency_bonus_iff (task : Task) (ctx : ScoringContext) :
    ((task.progress = 100 ∧ ∃ e : ℕ, task.estimated_minutes = some e ∧ task.actual_minutes < e) →
      (calculateTaskScore task ctx).efficiencyBonus
        = (calculateTaskScore task ctx).basePoints * (0.2 : ℚ)) ∧
    (¬ (task.progress = 100 ∧ ∃ e : ℕ, task.estimated_minutes = some e ∧
          task.actual_minutes < e) →
      (calculateTaskScore task ctx).efficiencyBonus = 0) := by
  have hscore_eff : (calculateTaskScore task ctx).efficiencyBonus
      = round1 (efficiencyBonusRaw task) := rfl
  have hscore_base : (calculateTaskScore task ctx).basePoints
      = round1 (basePointsRaw task) := rfl
  constructor
  · rintro ⟨h100, e, he, hlt⟩
    have hgd : task.estimated_minutes.getD 0 = e := by
      rw [he]
      rfl
    have hcond : task.progress = 100 ∧ 0 < task.estimated_minutes.getD 0 ∧
        task.actual_minutes < task.estimated_minutes.getD 0 :=
      ⟨h100, by rw [hgd]; omega, by rw [hgd]; exact hlt⟩
    rw [hscore_eff, hscore_base]
    unfold efficiencyBonusRaw basePointsRaw
    rw [if_pos hcond, h100]
    cases task.difficulty <;> norm_num [DIFFICULTY_MULTIPLIERS, round1, jsRound]
  · intro hneg
    have hcond : ¬ (task.progress = 100 ∧ 0 < task.estimated_minutes.getD 0 ∧
        task.actual_minutes < task.estimated_minutes.getD 0) := by
      rintro ⟨h100, hpos, hlt⟩
      apply hneg
      refine ⟨h100, task.estimated_minutes.getD 0, ?_, hlt⟩
      cases hh : task.estimated_minutes with
      | none =>
        rw [hh] at hpos
        simp at hpos
      | some e => simp [hh]
    rw [hscore_eff]
    unfold efficiencyBonusRaw
    rw [if_neg hcond]
    norm_num [round1, jsRound]

/-- Witness for C5: the bonus fires on the HARD example task (45 actual
under a 60-minute estimate) and vanishes on the over-time task (60 actual
over a 30-minute estimate). -/
theorem C5_efficiency_bonus_iff_witness :
    (calculateTaskScore hardExampleTask { taskTypesWorkedToday := 3 }).efficiencyBonus
        = (calculateTaskScore hardExampleTask { taskTypesWorkedToday := 3 }).basePoints
          * (0.2 : ℚ) ∧
    (calculateTaskScore overTimeTask { taskTypesWorkedToday := 3 }).efficiencyBonus = 0 := by
  constructor
  · exact (C5_efficiency_bonus_iff hardExampleTask { taskTypesWorkedToday := 3 }).1
      ⟨rfl, 60, rfl, by decide⟩
  · refine (C5_efficiency_bonus_iff overTimeTask { taskTypesWorkedToday := 3 }).2 ?_
    rintro ⟨-, e, he, hlt⟩
    have h30 : (30 : ℕ) = e := by simpa [overTimeTask] using he
    rw [← h30] at hlt
    norm_num [overTimeTask] at hlt

/-- The due-date band contributes a multiple of 5 between 0 and 40. -/
theorem dueDateScore_bounds (task : Task) (today : ℤ) :
    0 ≤ dueDateScore task today ∧ dueDateScore task today ≤ 40 ∧
      5 ∣ dueDateScore task today := by
  unfold dueDateScore
  cases task.due_date with
  | none => norm_num
  | some d =>
    dsimp only
    split_ifs <;> norm_num

/-- The completion band contributes a multiple of 5 between 0 and 30. -/
theorem completionScore_bounds (task : Task) :
    0 ≤ completionScore task ∧ completionScore task ≤ 30 ∧
      5 ∣ completionScore task := by
  unfold completionScore
  split_ifs <;> norm_num

/-- The time-constraint band contributes a multiple of 5 between 0 and 20. -/
theorem timeConstraintScore_bounds (task : Task) :
    0 ≤ timeConstraintScore task ∧ timeConstraintScore task ≤ 20 ∧
      5 ∣ timeConstraintScore task := by
  unfold timeConstraintScore
  cases task.max_minutes with
  | none => norm_num
  | some m =>
    dsimp only
    split_ifs <;> norm_num

/-- The neglect band contributes a multiple of 5 between 0 and 10. -/
theorem neglectScore_bounds (task : Task) (today : ℤ) :
    0 ≤ neglectScore task today ∧ neglectScore task today ≤ 10 ∧
      5 ∣ neglectScore task today := by
  unfold neglectScore
  cases task.updated_at with
  | none => norm_num
  | some u =>
    dsimp only
    split_ifs <;> norm_num

/-- C10: every priority score is a multiple of 5 between 0 and 100, with
the four bands capped at 40, 30, 20 and 10 respectively. -/
theorem C10_priority_multiple_of_five (task : Task) (today : ℤ) :
    0 ≤ calculatePriority task today ∧ calculatePriority task today ≤ 100 ∧
      5 ∣ calculatePriority task today ∧
      dueDateScore task today ≤ 40 ∧ completionScore task ≤ 30 ∧
      timeConstraintScore task ≤ 20 ∧ neglectScore task today ≤ 10 := by
  obtain ⟨ha1, ha2, ha3⟩ := dueDateScore_bounds task today
  obtain ⟨hb1, hb2, hb3⟩ := completionScore_bounds task
  obtain ⟨hc1, hc2, hc3⟩ := timeConstraintScore_bounds task
  obtain ⟨hd1, hd2, hd3⟩ := neglectScore_bounds task today
  unfold calculatePriority
  refine ⟨by linarith, by linarith, ?_, ha2, hb2, hc2, hd2⟩
  exact dvd_add (dvd_add (dvd_add ha3 hb3) hc3) hd3

end StrideCore
